import Mathlib

set_option autoImplicit false

/-!
Shallow embedding of the `djadmin_custom` admin code (`src/entities/admin.py`
and `src/events/admin.py`) and proofs about it.  The Django model classes of
the repository are not present under `src/`, so the record types below are
modelled from the spec's glossary; the admin-layer functions are translated
line by line from the two admin modules.
-/

namespace Djadmin

/-- Modelled from the spec: the Hero model (entities/models.py is absent from
src/; the glossary lists name, category, origin, benevolence factor and an
immortality flag).  `pk` is `none` before the row is first saved; `parent` is
the self-referential foreign key behind the reverse `children` relation used by
`HeroAdmin.children_display`; `added_by` stores the id of the user who created
the row (`HeroAdmin.save_model`). -/
structure Hero where
  pk : Option Nat
  name : String
  category : Option Nat
  origin : Option Nat
  benevolence_factor : Nat
  is_immortal : Bool
  parent : Option Nat
  added_by : Option Nat
  deriving DecidableEq

/-- Modelled from the spec: the Villain model (absent from src/).  A villain in
the change-form handler `VillainAdmin.response_change` is a saved row, so its
primary key is a plain `Nat`. -/
structure Villain where
  pk : Nat
  name : String
  category : Option Nat
  origin : Option Nat
  is_unique : Bool
  deriving DecidableEq

/-- Modelled from the spec: the Origin model (absent from src/), the grouping
dimension for the aggregate hero/villain counts of `OriginAdmin`. -/
structure Origin where
  pk : Nat
  name : String
  deriving DecidableEq

/-- Modelled from the spec: the Category model (absent from src/). -/
structure Category where
  pk : Nat
  name : String
  deriving DecidableEq

/-- An incoming HTTP request as the admin handlers consult it: the method, the
set of keys present in the POST data, the uploaded files, and the id of the
authenticated user. -/
structure Request where
  method : String
  POST : List String
  FILES : List (String × String)
  user : Nat
  deriving DecidableEq

/-! ## C3: the `is_very_benevolent` list filter and display column -/

/-- `IsVeryBenevolentFilter.queryset` (entities/admin.py lines 59-65): value
"Yes" applies `filter(benevolence_factor__gt=75)`, value "No" applies
`exclude(benevolence_factor__gt=75)`, any other value returns the queryset
unchanged. -/
def isVeryBenevolentFilterQueryset (value : Option String) (queryset : List Hero) :
    List Hero :=
  if value = some "Yes" then
    queryset.filter (fun h => 75 < h.benevolence_factor)
  else if value = some "No" then
    queryset.filter (fun h => ¬ 75 < h.benevolence_factor)
  else
    queryset

/-- `HeroAdmin.is_very_benevolent` (entities/admin.py lines 167-168): the
boolean display column `obj.benevolence_factor > 75`. -/
def is_very_benevolent (h : Hero) : Bool :=
  75 < h.benevolence_factor

/-! ## C7: the separate events admin site -/

/-- The models registered by the two admin modules, plus the auth app's Group
model which entities/admin.py unregisters. -/
inductive Model where
  | Category
  | Origin
  | Hero
  | HeroProxy
  | Villain
  | Group
  | Epic
  | EventHero
  | EventVillain
  | Event
  deriving DecidableEq

/-- An admin site: its instance name, the three display titles, and the list of
registered models. -/
structure AdminSite where
  name : String
  site_header : String
  site_title : String
  index_title : String
  registry : List Model
  deriving DecidableEq

/-- `AdminSite.register`: adds the model to the site's registry. -/
def registerModel (s : AdminSite) (m : Model) : AdminSite :=
  { s with registry := s.registry ++ [m] }

/-- `AdminSite.unregister`: removes the model from the site's registry. -/
def unregisterModel (s : AdminSite) (m : Model) : AdminSite :=
  { s with registry := s.registry.filter (fun x => x ≠ m) }

/-- Django's default admin site as it stands before this repository's admin
modules run: instance name "admin", the framework's default titles, and the
auth app's Group model already registered (entities/admin.py line 260
unregisters it). -/
def djangoDefaultSite : AdminSite :=
  { name := "admin"
    site_header := "Django administration"
    site_title := "Django site admin"
    index_title := "Site administration"
    registry := [Model.Group] }

/-- The module-level effects of entities/admin.py on the default site: the
three title assignments (lines 16-18), the `admin.site.register` calls in
source order (lines 253-258), and `admin.site.unregister(Group)` (line 260). -/
def entitiesAdminModule (s : AdminSite) : AdminSite :=
  let s := { s with
    site_header := "UMSRA Admin"
    site_title := "UMSRA Admin Portal"
    index_title := "Welcome to UMSRA Researcher Portal" }
  let s := registerModel s Model.Category
  let s := registerModel s Model.Origin
  let s := registerModel s Model.Hero
  let s := registerModel s Model.HeroProxy
  let s := registerModel s Model.Villain
  unregisterModel s Model.Group

/-- The default admin site after entities/admin.py has run. -/
def adminSite : AdminSite :=
  entitiesAdminModule djangoDefaultSite

/-- `EventAdminSite` / `event_admin_site` from events/admin.py: a separately
instantiated site named "event_admin" with its own titles, on which Epic,
EventHero, EventVillain and Event are registered (lines 6-18). -/
def event_admin_site : AdminSite :=
  let s : AdminSite :=
    { name := "event_admin"
      site_header := "UMSRA Events Admin"
      site_title := "UMSRA Events Admin Portal"
      index_title := "Welcome to UMSRA Researcher Events Portal"
      registry := [] }
  let s := registerModel s Model.Epic
  let s := registerModel s Model.EventHero
  let s := registerModel s Model.EventVillain
  registerModel s Model.Event

/-! ## C9: CategoryAdmin permissions -/

namespace CategoryAdmin

/-- `CategoryAdmin.has_add_permission` (entities/admin.py lines 246-247):
returns False for every request. -/
def has_add_permission (_ : Request) : Bool :=
  false

/-- `CategoryAdmin.has_delete_permission` (entities/admin.py lines 249-250):
returns False for every request and object. -/
def has_delete_permission (_ : Request) (_ : Option Category) : Bool :=
  false

end CategoryAdmin

/-! ## C1: VillainAdmin.response_change and the make-unique button -/

/-- Saving a villain whose primary key is fixed: Django `Model.save` updates
the row whose primary key matches, and inserts the object as a new row when no
row matches. -/
def dbSaveVillain (db : List Villain) (obj : Villain) : List Villain :=
  if db.any (fun v => v.pk = obj.pk) then
    db.map (fun v => if v.pk = obj.pk then obj else v)
  else
    db ++ [obj]

/-- The observable outcome of a change-form response: the villain table
afterwards, the user messages emitted, and the redirect target if any. -/
structure ChangeResult where
  db : List Villain
  messages : List String
  redirectTo : Option String
  deriving DecidableEq

/-- `VillainAdmin.response_change` (entities/admin.py lines 232-240): when
"_make-unique" is in the POST data, delete
`get_queryset(request).filter(name=obj.name).exclude(pk=obj.id)`, set
`obj.is_unique = True`, save `obj`, message the user and redirect to ".";
otherwise fall through to the framework response (which leaves the table
unchanged). -/
def response_change (req : Request) (db : List Villain) (obj : Villain) :
    ChangeResult :=
  if "_make-unique" ∈ req.POST then
    let remaining := db.filter (fun v => ¬ (v.name = obj.name ∧ v.pk ≠ obj.pk))
    { db := dbSaveVillain remaining { obj with is_unique := true }
      messages := ["This villain is now unique"]
      redirectTo := some "." }
  else
    { db := db, messages := [], redirectTo := none }

theorem dbSaveVillain_mem_self (db : List Villain) (obj : Villain) :
    obj ∈ dbSaveVillain db obj := by
  unfold dbSaveVillain
  split
  · rename_i hany
    simp only [List.any_eq_true, decide_eq_true_eq] at hany
    obtain ⟨w, hw, hwpk⟩ := hany
    exact List.mem_map.2 ⟨w, hw, by simp [hwpk]⟩
  · simp

theorem eq_or_mem_of_mem_dbSaveVillain (db : List Villain) (obj v : Villain)
    (hv : v ∈ dbSaveVillain db obj) : v = obj ∨ (v ∈ db ∧ v.pk ≠ obj.pk) := by
  unfold dbSaveVillain at hv
  split at hv
  · obtain ⟨w, hw, himg⟩ := List.mem_map.1 hv
    by_cases hwpk : w.pk = obj.pk
    · rw [if_pos hwpk] at himg
      exact Or.inl himg.symm
    · rw [if_neg hwpk] at himg
      exact Or.inr ⟨himg ▸ hw, himg ▸ hwpk⟩
  · rename_i hany
    simp only [List.any_eq_true, decide_eq_true_eq, not_exists] at hany
    rcases List.mem_append.1 hv with h | h
    · have := hany v
      simp only [h, true_and] at this
      exact Or.inr ⟨h, this⟩
    · exact Or.inl (List.mem_singleton.1 h)

theorem mem_dbSaveVillain_of_pk_ne (db : List Villain) (obj v : Villain)
    (hv : v ∈ db) (hpk : v.pk ≠ obj.pk) : v ∈ dbSaveVillain db obj := by
  unfold dbSaveVillain
  split
  · exact List.mem_map.2 ⟨v, hv, by rw [if_neg hpk]⟩
  · exact List.mem_append.2 (Or.inl hv)

/-! ## C6: the mark_immortal bulk action -/

/-- Whether a database row belongs to the selected queryset of a bulk admin
action; the admin selects rows by primary key. -/
def pkSelected (pk : Option Nat) (sel : List Nat) : Bool :=
  match pk with
  | none => false
  | some k => k ∈ sel

/-- `HeroAdmin.mark_immortal` (entities/admin.py lines 164-165):
`queryset.update(is_immortal=True)`, a single UPDATE of the selected rows. -/
def mark_immortal (db : List Hero) (sel : List Nat) : List Hero :=
  db.map (fun h => if pkSelected h.pk sel then { h with is_immortal := true } else h)

/-! ## C10: HeroAdmin.save_model -/

/-- Python truthiness of a nullable integer primary key as tested by
`if not obj.pk`: None and 0 are falsy, every other value is truthy. -/
def pyTruthyPk : Option Nat → Bool
  | none => false
  | some k => k != 0

/-- The greatest hero primary key in use, plus one: the key the database hands
to a freshly inserted row. -/
def freshHeroPk (db : List Hero) : Nat :=
  (db.filterMap Hero.pk).foldr max 0 + 1

/-- Django `Model.save` for heroes (the framework save path that
`ModelAdmin.save_model` delegates to): an object without a primary key is
inserted under a fresh key; otherwise the row with the matching key is
updated, or the object inserted when no row matches. -/
def dbSaveHero (db : List Hero) (obj : Hero) : List Hero :=
  match obj.pk with
  | none => db ++ [{ obj with pk := some (freshHeroPk db) }]
  | some k =>
    if db.any (fun h => h.pk = some k) then
      db.map (fun h => if h.pk = some k then obj else h)
    else
      db ++ [obj]

namespace HeroAdmin

/-- `HeroAdmin.save_model` (entities/admin.py lines 123-126): if `not obj.pk`,
set `obj.added_by = request.user`; then `super().save_model(...)`, the
framework save path. -/
def save_model (req : Request) (db : List Hero) (obj : Hero) : List Hero :=
  let obj :=
    if pyTruthyPk obj.pk then obj else { obj with added_by := some req.user }
  dbSaveHero db obj

end HeroAdmin

/-! ## C2: ExportCsvMixin.export_as_csv -/

/-- Modelled from Django's `Model._meta` (Options) API as consulted by
export_as_csv: the list of model fields is exposed under the attribute name
"fields"; looking up any other attribute name returns `none`, the embedding of
Python's AttributeError. -/
structure Options where
  label : String
  fields : List String
  deriving DecidableEq

/-- Attribute lookup on an Options object: only "fields" holds the field
list. -/
def Options.attr (meta : Options) (a : String) : Option (List String) :=
  if a = "fields" then some meta.fields else none

/-- An object row as export_as_csv reads it: `getattr(obj, field)` is a lookup
of the field name in the object's attribute assignment. -/
def getattrField (obj : List (String × String)) (field : String) : String :=
  ((obj.find? (fun p => p.1 = field)).map Prod.snd).getD ""

/-- The HTTP response export_as_csv would build: content type, the
Content-Disposition header, and the CSV rows written. -/
structure CsvResponse where
  content_type : String
  content_disposition : String
  rows : List (List String)
  deriving DecidableEq

/-- `ExportCsvMixin.export_as_csv` (entities/admin.py lines 70-82): reads
`meta.field` — note the singular: Options has an attribute `fields`, not
`field`, so this lookup fails — and would then write the header row followed
by one row per object of the queryset. -/
def export_as_csv (meta : Options) (queryset : List (List (String × String))) :
    Except String CsvResponse :=
  match meta.attr "field" with
  | none => Except.error "AttributeError: Options object has no attribute field"
  | some field_names =>
      Except.ok
        { content_type := "text/csv"
          content_disposition := "attachment; filename=" ++ meta.label ++ ".csv"
          rows := field_names ::
            queryset.map (fun obj => field_names.map (getattrField obj)) }

/-! ## C8: HeroAdmin.import_csv -/

/-- Modelled from Python semantics: `request.FILES` is a MultiValueDict, and
the source calls it like a function, `request.FILES("csv_file")`, which raises
TypeError (the subscript `request.FILES["csv_file"]` was the intended form, as
the lines below it show). -/
def filesCall (_ : List (String × String)) (_ : String) : Except String String :=
  Except.error "TypeError: MultiValueDict object is not callable"

/-- The observable outcome of the import-csv view: the hero table afterwards,
the user messages emitted, the template rendered on GET, and the redirect
target on POST. -/
structure ImportCsvOutcome where
  db : List Hero
  messages : List String
  rendered : Option String
  redirectTo : Option String
  deriving DecidableEq

/-- `HeroAdmin.import_csv` (entities/admin.py lines 150-162): on POST it
evaluates `request.FILES("csv_file")`, then `csv.reader(csv_file)`; the code
creating Hero objects from the parsed rows is commented out in the source, so
the success branch would message the user and redirect without touching the
table; on GET it renders the upload form. -/
def import_csv (req : Request) (db : List Hero) :
    Except String ImportCsvOutcome :=
  if req.method = "POST" then
    match filesCall req.FILES "csv_file" with
    | Except.error e => Except.error e
    | Except.ok _csv_file =>
        Except.ok
          { db := db
            messages := ["Your csv file has been imported"]
            rendered := none
            redirectTo := some ".." }
  else
    Except.ok
      { db := db
        messages := []
        rendered := some "admin/csv_form.html"
        redirectTo := none }

/-! ## C4: OriginAdmin annotated counts -/

/-- The heroes whose origin foreign key points at this origin row. -/
def heroesOfOrigin (heroes : List Hero) (o : Origin) : List Hero :=
  heroes.filter (fun h => h.origin = some o.pk)

/-- The villains whose origin foreign key points at this origin row. -/
def villainsOfOrigin (villains : List Villain) (o : Origin) : List Villain :=
  villains.filter (fun v => v.origin = some o.pk)

/-- LEFT JOIN padding: a relation with no matching row contributes a single
NULL row to the join. -/
def padJoin (l : List (Option Nat)) : List (Option Nat) :=
  if l.isEmpty then [none] else l

/-- Modelled from the query built by `OriginAdmin.get_queryset` (entities/
admin.py lines 29-35), `annotate(_hero_count=Count("hero", distinct=True),
_villain_count=Count("villain", distinct=True))`: both reverse relations are
LEFT JOINed onto the origin row in the same query, so an origin with m heroes
and n villains yields max(m,1) * max(n,1) join rows, each holding one hero key
and one villain key (NULL where a relation is empty). -/
def originJoinRows (o : Origin) (heroes : List Hero) (villains : List Villain) :
    List (Option Nat × Option Nat) :=
  (padJoin ((heroesOfOrigin heroes o).map Hero.pk)).flatMap
    (fun hk =>
      (padJoin ((villainsOfOrigin villains o).map (fun v => some v.pk))).map
        (fun vk => (hk, vk)))

/-- SQL `COUNT(DISTINCT x)` over a column of join rows: the number of distinct
non-NULL values. -/
def countDistinct (l : List (Option Nat)) : Nat :=
  (l.filterMap id).toFinset.card

/-- `OriginAdmin.hero_count` (lines 37-38): the `_hero_count` aggregate of the
annotated queryset. -/
def hero_count (o : Origin) (heroes : List Hero) (villains : List Villain) :
    Nat :=
  countDistinct ((originJoinRows o heroes villains).map Prod.fst)

/-- `OriginAdmin.villain_count` (lines 40-41): the `_villain_count` aggregate
of the annotated queryset. -/
def villain_count (o : Origin) (heroes : List Hero) (villains : List Villain) :
    Nat :=
  countDistinct ((originJoinRows o heroes villains).map Prod.snd)

theorem exists_mem_padJoin (l : List (Option Nat)) : ∃ x, x ∈ padJoin l := by
  cases l with
  | nil => exact ⟨none, by simp [padJoin]⟩
  | cons x t => exact ⟨x, by simp [padJoin]⟩

theorem some_mem_padJoin (a : Nat) (l : List (Option Nat)) :
    some a ∈ padJoin l ↔ some a ∈ l := by
  cases l with
  | nil => simp [padJoin]
  | cons x t => simp [padJoin]

theorem mem_filterMap_id (a : Nat) (l : List (Option Nat)) :
    a ∈ l.filterMap id ↔ some a ∈ l := by
  simp [List.mem_filterMap]

theorem mem_fst_join (a : Nat) (hs vs : List (Option Nat)) :
    a ∈ (((padJoin hs).flatMap (fun hk => (padJoin vs).map (fun vk => (hk, vk)))).map
        Prod.fst).filterMap id ↔ some a ∈ hs := by
  obtain ⟨vk0, hvk0⟩ := exists_mem_padJoin vs
  rw [mem_filterMap_id, ← some_mem_padJoin a hs]
  simp only [List.mem_map, List.mem_flatMap]
  constructor
  · rintro ⟨p, ⟨hk, hhk, vk, hvk, rfl⟩, hfst⟩
    exact (show hk = some a from hfst) ▸ hhk
  · intro ha
    exact ⟨(some a, vk0), ⟨some a, ha, vk0, hvk0, rfl⟩, rfl⟩

theorem mem_snd_join (a : Nat) (hs vs : List (Option Nat)) :
    a ∈ (((padJoin hs).flatMap (fun hk => (padJoin vs).map (fun vk => (hk, vk)))).map
        Prod.snd).filterMap id ↔ some a ∈ vs := by
  obtain ⟨hk0, hhk0⟩ := exists_mem_padJoin hs
  rw [mem_filterMap_id, ← some_mem_padJoin a vs]
  simp only [List.mem_map, List.mem_flatMap]
  constructor
  · rintro ⟨p, ⟨hk, hhk, vk, hvk, rfl⟩, hsnd⟩
    exact (show vk = some a from hsnd) ▸ hvk
  · intro ha
    exact ⟨(hk0, some a), ⟨hk0, hhk0, some a, ha, rfl⟩, rfl⟩

theorem length_filterMap_id_of_isSome (l : List (Option Nat))
    (h : ∀ x ∈ l, x.isSome) : (l.filterMap id).length = l.length := by
  induction l with
  | nil => rfl
  | cons x t ih =>
    match x, h x (List.mem_cons_self x t) with
    | some k, _ =>
      have hx : (some k :: t).filterMap id = k :: t.filterMap id := by
        simp
      rw [hx, List.length_cons, List.length_cons,
        ih (fun y hy => h y (List.mem_cons_of_mem _ hy))]

theorem nodup_filterMap_id (l : List (Option Nat)) (h : l.Nodup) :
    (l.filterMap id).Nodup :=
  List.Nodup.filterMap
    (fun a a' b hb hb' => by
      rw [Option.mem_def, id_eq] at hb hb'
      rw [hb, hb'])
    h

/-! ## C5: HeroAdmin.children_display -/

/-- Python `", ".join(xs)`: the elements concatenated with the separator
between consecutive ones, and the empty string for an empty list. -/
def joinSep (sep : String) : List String → String
  | [] => ""
  | [x] => x
  | x :: y :: rest => x ++ sep ++ joinSep sep (y :: rest)

/-- Django `reverse('admin:entities_hero_change', args=(child.pk,))`: the
admin change-form URL of a hero row, `/admin/<app_label>/<model_name>/<pk>/change/`. -/
def heroChangeUrl (pk : Option Nat) : String :=
  "/admin/entities/hero/"
    ++ (match pk with | some k => toString k | none => "None")
    ++ "/change/"

/-- Modelled from the spec: `obj.children.all()`, the reverse side of the
Hero model's self-referential foreign key — the rows whose parent is this
hero. -/
def childrenOf (db : List Hero) (h : Hero) : List Hero :=
  match h.pk with
  | none => []
  | some k => db.filter (fun c => c.parent = some k)

/-- One anchor element of the display text, the format call of line 181: the
opening tag with the child's change URL, the child's name as link text, and
the closing tag. -/
def childLink (c : Hero) : String :=
  "<a href=" ++ heroChangeUrl c.pk ++ ">" ++ c.name ++ "</a>"

/-- `HeroAdmin.children_display` (entities/admin.py lines 180-189): joins one
change-form link per element of `obj.children.all()` with ", ", and returns
"-" when the joined text is empty. -/
def children_display (db : List Hero) (h : Hero) : String :=
  let display_text := joinSep ", " ((childrenOf db h).map childLink)
  if display_text = "" then "-" else display_text

/-- Listed from the claim's wording for comparison: the children and,
recursively, all further descendants of a hero, in depth-first order.  The
fuel argument bounds the recursion depth by the table size. -/
def descendantsAux : Nat → List Hero → Hero → List Hero
  | 0, _, _ => []
  | fuel + 1, db, h => (childrenOf db h).flatMap (fun c => c :: descendantsAux fuel db c)

/-- All descendants of a hero. -/
def descendants (db : List Hero) (h : Hero) : List Hero :=
  descendantsAux db.length db h

/-- Written from the claim's words: a genuinely recursive children display,
one link per descendant, joined with ", ", "-" when there are none. -/
def recursiveChildrenDisplay (db : List Hero) (h : Hero) : String :=
  let t := joinSep ", " ((descendants db h).map childLink)
  if t = "" then "-" else t

theorem string_append_data (a b : String) : (a ++ b).data = a.data ++ b.data :=
  rfl

theorem append_ne_empty_left (a b : String) (ha : a ≠ "") : a ++ b ≠ "" := by
  intro h
  apply ha
  have hdata : a.data ++ b.data = [] := by
    rw [← string_append_data, h]
  have hnil : a.data = [] := (List.append_eq_nil.1 hdata).1
  cases a
  simp only at hnil
  rw [hnil]

theorem childLink_ne_empty (c : Hero) : childLink c ≠ "" := by
  unfold childLink
  apply append_ne_empty_left
  apply append_ne_empty_left
  apply append_ne_empty_left
  intro h
  have := congrArg String.data h
  simp at this

theorem joinSep_childLink_cons_ne_empty (c : Hero) (l : List String) :
    joinSep ", " (childLink c :: l) ≠ "" := by
  cases l with
  | nil => exact childLink_ne_empty c
  | cons y rest =>
    show childLink c ++ ", " ++ joinSep ", " (y :: rest) ≠ ""
    exact append_ne_empty_left _ _ (append_ne_empty_left _ _ (childLink_ne_empty c))

/-! ## Theorems for C3, C7, C9 -/

/-- C3: value "Yes" yields exactly the entities of the queryset whose
benevolence_factor is strictly greater than 75, value "No" yields exactly the
remaining entities, any other value returns the queryset unchanged, and the
`is_very_benevolent` display column is true for an entity exactly when it
belongs to the "Yes" result. -/
theorem isVeryBenevolentFilter_correct (value : Option String) (queryset : List Hero)
    (h : Hero) :
    (h ∈ isVeryBenevolentFilterQueryset (some "Yes") queryset ↔
        h ∈ queryset ∧ 75 < h.benevolence_factor) ∧
    (h ∈ isVeryBenevolentFilterQueryset (some "No") queryset ↔
        h ∈ queryset ∧ ¬ 75 < h.benevolence_factor) ∧
    (value ≠ some "Yes" → value ≠ some "No" →
        isVeryBenevolentFilterQueryset value queryset = queryset) ∧
    (h ∈ queryset →
        (is_very_benevolent h = true ↔
          h ∈ isVeryBenevolentFilterQueryset (some "Yes") queryset)) := by
  refine ⟨?_, ?_, ?_, ?_⟩
  · simp [isVeryBenevolentFilterQueryset, List.mem_filter]
  · simp [isVeryBenevolentFilterQueryset, List.mem_filter]
  · intro hy hn
    simp [isVeryBenevolentFilterQueryset, hy, hn]
  · intro hmem
    simp [isVeryBenevolentFilterQueryset, List.mem_filter, is_very_benevolent, hmem]

/-- A sample hero used to instantiate hypotheses of the universally quantified
theorems on concrete inputs. -/
def heroSample : Hero :=
  { pk := some 1
    name := "Zeus"
    category := some 1
    origin := some 1
    benevolence_factor := 80
    is_immortal := true
    parent := none
    added_by := some 1 }

/-- Witness for C3: the theorem instantiated on a concrete filter value and a
concrete one-element queryset. -/
theorem isVeryBenevolentFilter_correct_witness :
    isVeryBenevolentFilterQueryset (some "Maybe") [heroSample] = [heroSample] ∧
    (is_very_benevolent heroSample = true ↔
      heroSample ∈ isVeryBenevolentFilterQueryset (some "Yes") [heroSample]) :=
  ⟨(isVeryBenevolentFilter_correct (some "Maybe") [heroSample] heroSample).2.2.1
      (by decide) (by decide),
    (isVeryBenevolentFilter_correct (some "Maybe") [heroSample] heroSample).2.2.2
      (by simp)⟩

/-- C7: Epic, EventHero, EventVillain and Event are all registered on the
separately instantiated events admin site, whose instance name is
"event_admin" and whose header and titles are its own (distinct from the
default site's), and none of the four models is registered on the default
admin site. -/
theorem event_models_on_event_admin_site_only :
    (Model.Epic ∈ event_admin_site.registry ∧
      Model.EventHero ∈ event_admin_site.registry ∧
      Model.EventVillain ∈ event_admin_site.registry ∧
      Model.Event ∈ event_admin_site.registry) ∧
    (Model.Epic ∉ adminSite.registry ∧
      Model.EventHero ∉ adminSite.registry ∧
      Model.EventVillain ∉ adminSite.registry ∧
      Model.Event ∉ adminSite.registry) ∧
    event_admin_site.name = "event_admin" ∧
    event_admin_site.site_header = "UMSRA Events Admin" ∧
    event_admin_site.site_title = "UMSRA Events Admin Portal" ∧
    event_admin_site.index_title = "Welcome to UMSRA Researcher Events Portal" ∧
    event_admin_site.site_header ≠ adminSite.site_header ∧
    event_admin_site.site_title ≠ adminSite.site_title ∧
    event_admin_site.index_title ≠ adminSite.index_title ∧
    event_admin_site.name ≠ adminSite.name := by
  decide

/-- C9: `has_add_permission` and `has_delete_permission` of CategoryAdmin
return False for every request and (for deletion) every object, so no category
can be added or deleted through the admin. -/
theorem categoryAdmin_add_delete_forbidden :
    ∀ (r : Request) (obj : Option Category),
      CategoryAdmin.has_add_permission r = false ∧
      CategoryAdmin.has_delete_permission r obj = false :=
  fun _ _ => ⟨rfl, rfl⟩

/-- C1: when "_make-unique" is present in the POST data, response_change
deletes every other villain with the same name (equal name, different primary
key), the saved villain ends up in the table with is_unique set to True (and
every row left under its key is exactly that updated villain), and every other
villain with a different name is untouched. -/
theorem response_change_make_unique (req : Request) (db : List Villain)
    (obj : Villain) (hmk : "_make-unique" ∈ req.POST) :
    (∀ v ∈ db, v.name = obj.name → v.pk ≠ obj.pk →
        v ∉ (response_change req db obj).db) ∧
    ({ obj with is_unique := true } ∈ (response_change req db obj).db) ∧
    (∀ v ∈ (response_change req db obj).db, v.pk = obj.pk →
        v = { obj with is_unique := true }) ∧
    (∀ v ∈ db, v.name ≠ obj.name → v.pk ≠ obj.pk →
        v ∈ (response_change req db obj).db) := by
  have hdb : (response_change req db obj).db
      = dbSaveVillain
          (db.filter (fun v => ¬ (v.name = obj.name ∧ v.pk ≠ obj.pk)))
          { obj with is_unique := true } := by
    simp [response_change, hmk]
  rw [hdb]
  refine ⟨?_, dbSaveVillain_mem_self _ _, ?_, ?_⟩
  · intro v hv hname hpk hmem
    rcases eq_or_mem_of_mem_dbSaveVillain _ _ _ hmem with h | ⟨hmemf, _⟩
    · exact hpk (by rw [h])
    · have hcond := (List.mem_filter.1 hmemf).2
      simp only [decide_eq_true_eq] at hcond
      exact hcond ⟨hname, hpk⟩
  · intro v hmem hpk
    rcases eq_or_mem_of_mem_dbSaveVillain _ _ _ hmem with h | ⟨_, hne⟩
    · exact h
    · exact absurd hpk hne
  · intro v hv hname hpk
    apply mem_dbSaveVillain_of_pk_ne
    · refine List.mem_filter.2 ⟨hv, ?_⟩
      simp only [decide_eq_true_eq]
      exact fun hc => hname hc.1
    · exact hpk

/-- A villain with a duplicated name, the one submitted on the change form. -/
def vJoker1 : Villain :=
  { pk := 1, name := "Joker", category := none, origin := some 1, is_unique := false }

/-- The duplicate of vJoker1 under another primary key. -/
def vJoker2 : Villain :=
  { pk := 2, name := "Joker", category := none, origin := some 2, is_unique := false }

/-- A villain whose name is not duplicated. -/
def vBane : Villain :=
  { pk := 3, name := "Bane", category := none, origin := some 1, is_unique := false }

/-- A change-form submission carrying the "_make-unique" button. -/
def reqMakeUnique : Request :=
  { method := "POST", POST := ["_make-unique"], FILES := [], user := 7 }

/-- The villain table used to instantiate the C1 theorem. -/
def villainDb : List Villain :=
  [vJoker1, vJoker2, vBane]

/-- Witness for C1: on a concrete table with a duplicated name, the duplicate
is deleted, the saved villain is present with is_unique True, and the villain
with a different name survives. -/
theorem response_change_make_unique_witness :
    vJoker2 ∉ (response_change reqMakeUnique villainDb vJoker1).db ∧
    { vJoker1 with is_unique := true } ∈ (response_change reqMakeUnique villainDb vJoker1).db ∧
    vBane ∈ (response_change reqMakeUnique villainDb vJoker1).db := by
  have h := response_change_make_unique reqMakeUnique villainDb vJoker1 (by decide)
  exact ⟨h.1 vJoker2 (by decide) (by decide) (by decide),
    h.2.1,
    h.2.2.2 vBane (by decide) (by decide) (by decide)⟩

/-- C6: mark_immortal maps the hero table pointwise; a selected hero keeps
every field except is_immortal, which becomes True, and an unselected hero
keeps every field including is_immortal. -/
theorem mark_immortal_frame (db : List Hero) (sel : List Nat) :
    List.Forall₂ (fun h h' =>
        h'.pk = h.pk ∧ h'.name = h.name ∧ h'.category = h.category ∧
        h'.origin = h.origin ∧ h'.benevolence_factor = h.benevolence_factor ∧
        h'.parent = h.parent ∧ h'.added_by = h.added_by ∧
        h'.is_immortal = (pkSelected h.pk sel || h.is_immortal))
      db (mark_immortal db sel) := by
  induction db with
  | nil => simp [mark_immortal]
  | cons h t ih =>
    have hcons : mark_immortal (h :: t) sel
        = (if pkSelected h.pk sel then { h with is_immortal := true } else h)
            :: mark_immortal t sel := rfl
    rw [hcons]
    refine List.Forall₂.cons ?_ ih
    by_cases hsel : pkSelected h.pk sel = true
    · simp [hsel]
    · have hsel' : pkSelected h.pk sel = false := by
        simpa using hsel
      simp [hsel']

/-- C10: save_model assigns added_by to the requesting user exactly on a newly
created hero (no primary key yet); an existing hero (its primary key a
nonzero database key) is passed to the framework save path unmodified, and in
both cases the object goes through that save path. -/
theorem save_model_sets_added_by_only_on_create (req : Request) (db : List Hero)
    (obj : Hero) (hpk : ∀ k, obj.pk = some k → k ≠ 0) :
    (obj.pk = none →
        HeroAdmin.save_model req db obj
          = dbSaveHero db { obj with added_by := some req.user }) ∧
    (obj.pk ≠ none → HeroAdmin.save_model req db obj = dbSaveHero db obj) := by
  constructor
  · intro hnone
    simp [HeroAdmin.save_model, pyTruthyPk, hnone]
  · intro hsome
    match hobj : obj.pk with
    | none => exact absurd hobj hsome
    | some k =>
      have hk : k ≠ 0 := hpk k hobj
      have htr : pyTruthyPk obj.pk = true := by
        simp [pyTruthyPk, hobj, hk]
      simp [HeroAdmin.save_model, htr]

/-- A hero that has not been saved yet (no primary key). -/
def heroNew : Hero :=
  { pk := none
    name := "Hera"
    category := none
    origin := none
    benevolence_factor := 50
    is_immortal := false
    parent := none
    added_by := none }

/-- A request from user 7. -/
def reqUser7 : Request :=
  { method := "POST", POST := [], FILES := [], user := 7 }

/-- Witness for C10: on a concrete new hero the user is recorded, and on a
concrete saved hero the object is saved as it is. -/
theorem save_model_sets_added_by_only_on_create_witness :
    HeroAdmin.save_model reqUser7 [] heroNew
      = dbSaveHero [] { heroNew with added_by := some 7 } ∧
    HeroAdmin.save_model reqUser7 [] heroSample = dbSaveHero [] heroSample := by
  constructor
  · exact (save_model_sets_added_by_only_on_create reqUser7 [] heroNew
      (by intro k hk; simp [heroNew] at hk)).1 rfl
  · exact (save_model_sets_added_by_only_on_create reqUser7 [] heroSample
      (by intro k hk; simp [heroSample] at hk; omega)).2 (by simp [heroSample])

/-- C2: export_as_csv never returns a CSV response: the attribute access
`meta.field` fails, because Options exposes the field list as `fields`, so the
function raises AttributeError on every queryset. -/
theorem export_as_csv_always_raises (meta : Options)
    (queryset : List (List (String × String))) :
    export_as_csv meta queryset
      = Except.error "AttributeError: Options object has no attribute field" :=
  rfl

/-- C8: a POST request to the import-csv view raises TypeError at
`request.FILES("csv_file")`, so the hero table is untouched and no success
message or redirect is produced. -/
theorem import_csv_post_raises (req : Request) (db : List Hero)
    (hpost : req.method = "POST") :
    import_csv req db
      = Except.error "TypeError: MultiValueDict object is not callable" := by
  simp [import_csv, hpost, filesCall]

/-- Witness for C8: the theorem instantiated on a concrete POST request and a
concrete (empty) hero table. -/
theorem import_csv_post_raises_witness :
    import_csv reqUser7 []
      = Except.error "TypeError: MultiValueDict object is not callable" :=
  import_csv_post_raises reqUser7 [] rfl

/-- C4: with pairwise distinct primary keys on the hero and villain tables
(and every hero row saved, so its key is present), hero_count of an origin
equals the number of heroes whose origin is that record, and villain_count
the number of such villains: the DISTINCT in both aggregates cancels the row
multiplication of the double LEFT JOIN. -/
theorem origin_counts_correct (o : Origin) (heroes : List Hero)
    (villains : List Villain)
    (hall : ∀ h ∈ heroes, h.pk.isSome)
    (hnd : (heroes.map Hero.pk).Nodup)
    (vnd : (villains.map Villain.pk).Nodup) :
    hero_count o heroes villains = (heroesOfOrigin heroes o).length ∧
    villain_count o heroes villains = (villainsOfOrigin villains o).length := by
  constructor
  · have hsub : List.Sublist ((heroesOfOrigin heroes o).map Hero.pk)
        (heroes.map Hero.pk) :=
      List.Sublist.map Hero.pk (List.filter_sublist heroes)
    have hnd' : ((heroesOfOrigin heroes o).map Hero.pk).Nodup := hnd.sublist hsub
    have hall' : ∀ x ∈ (heroesOfOrigin heroes o).map Hero.pk, x.isSome := by
      intro x hx
      obtain ⟨h, hh, rfl⟩ := List.mem_map.1 hx
      exact hall h (List.mem_of_mem_filter hh)
    have hfin :
        (((originJoinRows o heroes villains).map Prod.fst).filterMap id).toFinset
          = (((heroesOfOrigin heroes o).map Hero.pk).filterMap id).toFinset := by
      ext a
      rw [List.mem_toFinset, List.mem_toFinset]
      rw [show originJoinRows o heroes villains
            = (padJoin ((heroesOfOrigin heroes o).map Hero.pk)).flatMap
                (fun hk =>
                  (padJoin ((villainsOfOrigin villains o).map
                    (fun v => some v.pk))).map (fun vk => (hk, vk))) from rfl]
      rw [mem_fst_join a, mem_filterMap_id a]
    calc hero_count o heroes villains
        = (((heroesOfOrigin heroes o).map Hero.pk).filterMap id).toFinset.card := by
          unfold hero_count countDistinct
          rw [hfin]
      _ = (((heroesOfOrigin heroes o).map Hero.pk).filterMap id).length :=
          List.toFinset_card_of_nodup (nodup_filterMap_id _ hnd')
      _ = ((heroesOfOrigin heroes o).map Hero.pk).length :=
          length_filterMap_id_of_isSome _ hall'
      _ = (heroesOfOrigin heroes o).length := by simp
  · have hsubv : List.Sublist ((villainsOfOrigin villains o).map Villain.pk)
        (villains.map Villain.pk) :=
      List.Sublist.map Villain.pk (List.filter_sublist villains)
    have hndv : ((villainsOfOrigin villains o).map Villain.pk).Nodup := vnd.sublist hsubv
    have hndv' : ((villainsOfOrigin villains o).map
        (fun v => (some v.pk : Option Nat))).Nodup := by
      have hmm : (villainsOfOrigin villains o).map (fun v => (some v.pk : Option Nat))
          = ((villainsOfOrigin villains o).map Villain.pk).map some := by
        rw [List.map_map]
        rfl
      rw [hmm]
      exact List.Nodup.map (Option.some_injective Nat) hndv
    have hallv : ∀ x ∈ (villainsOfOrigin villains o).map
        (fun v => (some v.pk : Option Nat)), x.isSome := by
      intro x hx
      obtain ⟨v, _, rfl⟩ := List.mem_map.1 hx
      rfl
    have hfin :
        (((originJoinRows o heroes villains).map Prod.snd).filterMap id).toFinset
          = (((villainsOfOrigin villains o).map
              (fun v => (some v.pk : Option Nat))).filterMap id).toFinset := by
      ext a
      rw [List.mem_toFinset, List.mem_toFinset]
      rw [show originJoinRows o heroes villains
            = (padJoin ((heroesOfOrigin heroes o).map Hero.pk)).flatMap
                (fun hk =>
                  (padJoin ((villainsOfOrigin villains o).map
                    (fun v => some v.pk))).map (fun vk => (hk, vk))) from rfl]
      rw [mem_snd_join a, mem_filterMap_id a]
    calc villain_count o heroes villains
        = (((villainsOfOrigin villains o).map
            (fun v => (some v.pk : Option Nat))).filterMap id).toFinset.card := by
          unfold villain_count countDistinct
          rw [hfin]
      _ = (((villainsOfOrigin villains o).map
            (fun v => (some v.pk : Option Nat))).filterMap id).length :=
          List.toFinset_card_of_nodup (nodup_filterMap_id _ hndv')
      _ = ((villainsOfOrigin villains o).map
            (fun v => (some v.pk : Option Nat))).length :=
          length_filterMap_id_of_isSome _ hallv
      _ = (villainsOfOrigin villains o).length := by simp

/-- The origin row of the C4 witness. -/
def origin1 : Origin :=
  { pk := 1, name := "Olympus" }

/-- A second hero of origin 1. -/
def heroOlympus2 : Hero :=
  { pk := some 2
    name := "Ares"
    category := none
    origin := some 1
    benevolence_factor := 10
    is_immortal := true
    parent := none
    added_by := none }

/-- A hero of a different origin. -/
def heroElsewhere : Hero :=
  { pk := some 3
    name := "Loki"
    category := none
    origin := some 2
    benevolence_factor := 10
    is_immortal := true
    parent := none
    added_by := none }

/-- The hero table of the C4 witness. -/
def heroesC4 : List Hero :=
  [heroSample, heroOlympus2, heroElsewhere]

/-- The villain table of the C4 witness. -/
def villainsC4 : List Villain :=
  [vJoker1, vBane]

/-- Witness for C4: on a concrete origin with two heroes (of three) and two
villains, the annotated counts are 2 and 2. -/
theorem origin_counts_correct_witness :
    (hero_count origin1 heroesC4 villainsC4 = (heroesOfOrigin heroesC4 origin1).length ∧
      villain_count origin1 heroesC4 villainsC4 = (villainsOfOrigin villainsC4 origin1).length) ∧
    hero_count origin1 heroesC4 villainsC4 = 2 ∧
    villain_count origin1 heroesC4 villainsC4 = 2 := by
  refine ⟨origin_counts_correct origin1 heroesC4 villainsC4
    (by decide) (by decide) (by decide), ?_, ?_⟩
  · decide
  · decide

/-- The top of the three-generation family of the C5 counterexample. -/
def heroAncestor : Hero :=
  { pk := some 1
    name := "Kronos"
    category := none
    origin := none
    benevolence_factor := 10
    is_immortal := true
    parent := none
    added_by := none }

/-- The direct child of heroAncestor. -/
def heroChild : Hero :=
  { pk := some 2
    name := "Poseidon"
    category := none
    origin := none
    benevolence_factor := 60
    is_immortal := true
    parent := some 1
    added_by := none }

/-- The grandchild of heroAncestor. -/
def heroGrandchild : Hero :=
  { pk := some 3
    name := "Triton"
    category := none
    origin := none
    benevolence_factor := 60
    is_immortal := false
    parent := some 2
    added_by := none }

/-- The hero table of the C5 counterexample. -/
def heroFamily : List Hero :=
  [heroAncestor, heroChild, heroGrandchild]

/-- Counterexample for C5: with a child and a grandchild, children_display
renders only the direct child's link, while the genuinely recursive rendering
the claim describes also lists the grandchild, so the two differ. -/
theorem children_display_not_recursive :
    children_display heroFamily heroAncestor
      = "<a href=/admin/entities/hero/2/change/>Poseidon</a>" ∧
    recursiveChildrenDisplay heroFamily heroAncestor
      = "<a href=/admin/entities/hero/2/change/>Poseidon</a>, <a href=/admin/entities/hero/3/change/>Triton</a>" ∧
    children_display heroFamily heroAncestor
      ≠ recursiveChildrenDisplay heroFamily heroAncestor := by
  refine ⟨?_, ?_, ?_⟩ <;> decide

/-- C5 amended: children_display renders the direct children only — "-" when
`obj.children.all()` is empty, and otherwise one change-form link per direct
child (the child's name as link text) joined with ", "; deeper descendants are
not rendered. -/
theorem children_display_direct_children (db : List Hero) (h : Hero) :
    (childrenOf db h = [] → children_display db h = "-") ∧
    (childrenOf db h ≠ [] →
      children_display db h
        = joinSep ", " ((childrenOf db h).map childLink)) := by
  constructor
  · intro hnil
    simp [children_display, hnil, joinSep]
  · intro hne
    match hch : childrenOf db h with
    | [] => exact absurd hch hne
    | c :: rest =>
      have hjoin : joinSep ", " (childLink c :: rest.map childLink) ≠ "" :=
        joinSep_childLink_cons_ne_empty c (rest.map childLink)
      simp [children_display, hch, hjoin]

/-- Witness for C5 (amended): a hero with no children displays "-", and a hero
with one child displays that child's link. -/
theorem children_display_direct_children_witness :
    children_display heroFamily heroGrandchild = "-" ∧
    children_display heroFamily heroChild
      = joinSep ", " ((childrenOf heroFamily heroChild).map childLink) :=
  ⟨(children_display_direct_children heroFamily heroGrandchild).1 (by decide),
    (children_display_direct_children heroFamily heroChild).2 (by decide)⟩

end Djadmin
